import Mathlib

/-!
Verification development for the health-peek repository: a shallow
embedding of the front-end helpers, the mobile screens/contexts, the two
API clients, and (modelled from the specification, as the server-side
Chat Analysis Engine is not part of the shipped sources) the sentiment
scorer, the red-flag health derivation, the sentiment rollup and the
participant-role assignment.
-/

namespace HealthPeek

/-! JavaScript string primitives.  JS strings are embedded as `List Char`
(one entry per code point); `String.prototype.trim` strips the JS
whitespace set from both ends. -/

/-- Whitespace set stripped by `String.prototype.trim` (the code points
the repository's inputs can realistically contain). -/
def jsWhitespaceChar (c : Char) : Bool :=
  (c == ' ') || (c == '\t') || (c == '\n') || (c == '\r') ||
  (c == '\x0b') || (c == '\x0c') || (c == ' ')

/-- Embedding of `s.trim()`: drop JS whitespace from both ends. -/
def jsTrim (l : List Char) : List Char :=
  ((l.dropWhile jsWhitespaceChar).reverse.dropWhile jsWhitespaceChar).reverse

theorem jsTrim_eq_nil_iff (l : List Char) :
    jsTrim l = [] ↔ ∀ c ∈ l, jsWhitespaceChar c = true := by
  unfold jsTrim
  rw [List.reverse_eq_nil_iff, List.dropWhile_eq_nil_iff]
  constructor
  · intro h c hc
    by_cases hmem : c ∈ l.dropWhile jsWhitespaceChar
    · exact h c (by simpa using hmem)
    · have hsplit : l = l.takeWhile jsWhitespaceChar ++ l.dropWhile jsWhitespaceChar :=
        (List.takeWhile_append_dropWhile (p := jsWhitespaceChar) (l := l)).symm
      have : c ∈ l.takeWhile jsWhitespaceChar := by
        rcases (List.mem_append.mp (hsplit ▸ hc)) with h1 | h2
        · exact h1
        · exact absurd h2 hmem
      exact List.mem_takeWhile_imp this
  · intro h c hc
    exact h c ((List.dropWhile_sublist jsWhitespaceChar (l := l)).mem (by simpa using hc))

/-- Embedding of `validateMessage` from
`mental-health-frontend/src/utils/helpers.js`:
`message.trim().length > 0 && message.length <= 5000`. -/
def validateMessage (m : List Char) : Bool :=
  decide (0 < (jsTrim m).length) && decide (m.length ≤ 5000)

/-- The `MessageAnalyzer` textarea carries `maxLength=5000`: the bound
text state never exceeds 5000 characters. -/
def textareaAdmits (m : List Char) : Bool :=
  decide (m.length ≤ 5000)

/-- The analyze form submits only when the guard `!message.trim()` fails
(`MessageAnalyzer.js`: the submit button is disabled and `handleAnalyze`
returns early when the trimmed message is empty). -/
def submitEnabled (m : List Char) : Bool :=
  !(jsTrim m).isEmpty

/-- A message is accepted for single-message analysis when the textarea
admits it and the form can be submitted. -/
def acceptsForAnalysis (m : List Char) : Bool :=
  textareaAdmits m && submitEnabled m

theorem jsTrim_pos_iff (m : List Char) :
    0 < (jsTrim m).length ↔ ∃ c ∈ m, jsWhitespaceChar c = false := by
  rw [List.length_pos_iff_ne_nil]
  constructor
  · intro h
    by_contra hall
    push_neg at hall
    exact h ((jsTrim_eq_nil_iff m).mpr (fun c hc => by
      have := hall c hc
      revert this
      cases jsWhitespaceChar c <;> simp))
  · rintro ⟨c, hc, hcw⟩ hnil
    have := (jsTrim_eq_nil_iff m).mp hnil c hc
    rw [this] at hcw
    exact Bool.noConfusion hcw

/-- C4: the front-end accepts a message for single-message analysis
(`validateMessage` returns true; the analyze form can submit it) iff the
message has at least one non-whitespace character and at most 5000
characters, matching the AnalyzeMessage request bound 1..5000. -/
theorem validateMessage_accepts_iff (m : List Char) :
    (validateMessage m = true ↔
      ((∃ c ∈ m, jsWhitespaceChar c = false) ∧ m.length ≤ 5000)) ∧
    acceptsForAnalysis m = validateMessage m := by
  constructor
  · rw [validateMessage]
    simp only [Bool.and_eq_true, decide_eq_true_eq]
    rw [jsTrim_pos_iff]
  · rw [acceptsForAnalysis, validateMessage, textareaAdmits, submitEnabled]
    by_cases h1 : jsTrim m = []
    · simp [h1]
    · have : 0 < (jsTrim m).length := List.length_pos_iff_ne_nil.mpr h1
      simp [h1, this, Bool.and_comm]

/-! The mobile chat-import screen
(`mental-health-app/src/screens/analysis/ChatImportScreen.js`,
`handleImport`): content whose trimmed form is empty or shorter than 10
characters is rejected with an alert before `analysisService.importChat`
is called; otherwise the request is issued with the trimmed content, the
chosen format and `userName.trim() || undefined`. -/

/-- Payload of an issued `importChat` call. -/
structure ImportRequest where
  content : List Char
  format_type : String
  current_user_name : Option (List Char)
  deriving Repr, DecidableEq

/-- Embedding of `handleImport`; `none` means the import was rejected
with an error alert and no `importChat` call was issued. -/
def handleImport (content : List Char) (fmt : String) (userName : List Char) :
    Option ImportRequest :=
  if (jsTrim content).isEmpty || decide ((jsTrim content).length < 10) then
    none
  else
    some ⟨jsTrim content, fmt,
      if (jsTrim userName).isEmpty then none else some (jsTrim userName)⟩

/-- C5: conversation-import content with fewer than 10 characters after
trimming (MinCharsForImport) is rejected before any processing: the
importChat call is never issued. -/
theorem handleImport_rejects_small (content : List Char) (fmt : String)
    (userName : List Char) (h : (jsTrim content).length < 10) :
    handleImport content fmt userName = none := by
  rw [handleImport]
  simp [h]

/-- Witness for C5 at the concrete content "short" (5 chars after trim). -/
theorem handleImport_rejects_small_witness :
    (jsTrim "short".data).length < 10 ∧
      handleImport "short".data "whatsapp" [] = none :=
  ⟨by decide, handleImport_rejects_small "short".data "whatsapp" [] (by decide)⟩

/-! API clients.  Both `mental-health-frontend/src/services/base.js` and
`mental-health-app/src/services/api.js` wrap `fetch` in a `request`
method; errors are surfaced as thrown `Error` objects whose message is
derived from the response body.  The embedding models a received
response by its status, status text, content type and the body the
client would obtain from it, and returns `Except errorMessage payload`. -/

/-- Content types the clients dispatch on. -/
inductive CType
  | json
  | pdf
  | octet
  | plain
  deriving Repr, DecidableEq, BEq

/-- The two fields of a JSON error body the clients read. -/
structure JsonObj where
  detail : Option String
  message : Option String
  deriving Repr, DecidableEq

/-- Body as the client materialises it: a parsed JSON object or raw text. -/
inductive RespBody
  | obj (o : JsonObj)
  | text (s : String)
  deriving Repr, DecidableEq

structure HttpResponse where
  status : Nat
  statusText : String
  ctype : CType
  body : RespBody
  deriving Repr, DecidableEq

/-- The WHATWG `Response.ok` flag: status in 200..299. -/
def respOk (r : HttpResponse) : Bool :=
  decide (200 ≤ r.status) && decide (r.status ≤ 299)

/-- JS truthiness of a possibly-absent string (absent and "" are falsy). -/
def jsTruthy : Option String → Bool
  | none => false
  | some s => !(s == "")

/-- JS `a || b` on possibly-absent strings. -/
def jsOrS (a b : Option String) : Option String :=
  if jsTruthy a then a else b

/-- How a JS template literal renders a possibly-absent string. -/
def renderJs : Option String → String
  | none => "undefined"
  | some s => s

/-- Embedding of `ApiService.request` error handling in the web client
(`base.js` lines 54-68): on a non-ok response the thrown message is
`HTTP <status>: <errorMessage>` where `errorMessage` is
`result.detail || result.message` for object results and the raw text
otherwise.  (The 401 branch clears local storage and redirects; the
thrown message is built the same way.) -/
def webRequest (r : HttpResponse) : Except String RespBody :=
  if respOk r then Except.ok r.body
  else
    let errorMessage : String :=
      match r.body with
      | RespBody.obj o => renderJs (jsOrS o.detail o.message)
      | RespBody.text s => s
    Except.error ("HTTP " ++ toString r.status ++ ": " ++ errorMessage)

/-- Embedding of the try block of `ApiService.request` in the mobile
client (`api.js` lines 33-70): a 401 throws `UNAUTHORIZED` before the
body is read; PDF and octet-stream responses throw
`HTTP <status>: <statusText>`; otherwise the thrown message is
`data?.detail || data?.message || 'HTTP <status>'`, where a non-JSON text
body that fails to parse becomes `\x7b message: text \x7d`. -/
def mobileRequestInner (r : HttpResponse) : Except String RespBody :=
  if r.status == 401 then Except.error "UNAUTHORIZED"
  else if (r.ctype == CType.pdf) || (r.ctype == CType.octet) then
    if respOk r then Except.ok r.body
    else Except.error ("HTTP " ++ toString r.status ++ ": " ++ r.statusText)
  else
    let data : JsonObj :=
      match r.body with
      | RespBody.obj o => o
      | RespBody.text s => ⟨none, some s⟩
    if respOk r then Except.ok (RespBody.obj data)
    else
      Except.error (renderJs (jsOrS (jsOrS data.detail data.message)
        (some ("HTTP " ++ toString r.status))))

/-- Embedding of the catch rewrap of `ApiService.request` in the mobile
client (`api.js` lines 71-74): a message equal to `UNAUTHORIZED` or
starting with `HTTP` is rethrown verbatim, anything else is wrapped as
`Network error: <message>`. -/
def mobileCatchWrap (m : String) : String :=
  if m == "UNAUTHORIZED" then m
  else if m.startsWith "HTTP" then m
  else "Network error: " ++ m

/-- What callers of the mobile `ApiService.request` observe: the try
block's outcome with every thrown message passed through the catch
rewrap. -/
def mobileRequest (r : HttpResponse) : Except String RespBody :=
  match mobileRequestInner r with
  | Except.ok v => Except.ok v
  | Except.error m => Except.error (mobileCatchWrap m)

/-- C6 counterexample: a 400 response with JSON body holding
detail = "bad" makes the web client throw "HTTP 400: bad", not an error
whose message is the body's detail field "bad". -/
theorem webRequest_detail_prefixed_cex :
    webRequest ⟨400, "Bad Request", CType.json, RespBody.obj ⟨some "bad", none⟩⟩
        = Except.error "HTTP 400: bad" ∧
      "HTTP 400: bad" ≠ "bad" := by
  constructor
  · rfl
  · decide

/-- C6 (amended): on a non-2xx response with a JSON object body, the
error text is derived as detail falling back to message under JS
truthiness; the web client throws it prefixed with `HTTP <status>: `;
the mobile client derives `detail || message || 'HTTP <status>'` and
passes it through its catch rewrap, so `UNAUTHORIZED` and texts starting
with `HTTP` (in particular the both-fields-falsy default) surface
verbatim while any other text surfaces as `Network error: <text>`; and
the mobile client throws `UNAUTHORIZED` for 401 responses without
consulting the body. -/
theorem request_error_message_amended (r : HttpResponse) (o : JsonObj)
    (hct : r.ctype = CType.json) (hbody : r.body = RespBody.obj o)
    (hnok : respOk r = false) :
    webRequest r
        = Except.error ("HTTP " ++ toString r.status ++ ": "
            ++ renderJs (jsOrS o.detail o.message)) ∧
      (r.status ≠ 401 → mobileRequest r
        = Except.error (mobileCatchWrap (renderJs (jsOrS
            (jsOrS o.detail o.message)
            (some ("HTTP " ++ toString r.status)))))) ∧
      (r.status = 401 → mobileRequest r = Except.error "UNAUTHORIZED") := by
  refine ⟨?_, ?_, ?_⟩
  · rw [webRequest]
    simp [hnok, hbody]
  · intro h401
    have hne : (r.status == 401) = false := by
      simpa using h401
    have h1 : (CType.json == CType.pdf) = false := rfl
    have h2 : (CType.json == CType.octet) = false := rfl
    have hinner : mobileRequestInner r
        = Except.error (renderJs (jsOrS (jsOrS o.detail o.message)
            (some ("HTTP " ++ toString r.status)))) := by
      rw [mobileRequestInner]
      simp [hne, hnok, hbody, hct, h1, h2]
    unfold mobileRequest
    rw [hinner]
  · intro h401
    have hinner : mobileRequestInner r = Except.error "UNAUTHORIZED" := by
      rw [mobileRequestInner]
      simp [h401]
    unfold mobileRequest
    rw [hinner]
    rfl

/-- Witness for C6 amended at a concrete 404 response with
message = "oops" and no detail. -/
theorem request_error_message_amended_witness :
    (⟨404, "", CType.json, RespBody.obj ⟨none, some "oops"⟩⟩ : HttpResponse).ctype
        = CType.json ∧
      (⟨404, "", CType.json, RespBody.obj ⟨none, some "oops"⟩⟩ : HttpResponse).body
        = RespBody.obj ⟨none, some "oops"⟩ ∧
      respOk ⟨404, "", CType.json, RespBody.obj ⟨none, some "oops"⟩⟩ = false ∧
      (webRequest ⟨404, "", CType.json, RespBody.obj ⟨none, some "oops"⟩⟩
          = Except.error ("HTTP " ++ toString (404 : Nat) ++ ": "
              ++ renderJs (jsOrS none (some "oops"))) ∧
        ((404 : Nat) ≠ 401 →
          mobileRequest ⟨404, "", CType.json, RespBody.obj ⟨none, some "oops"⟩⟩
            = Except.error (mobileCatchWrap (renderJs (jsOrS
                (jsOrS none (some "oops"))
                (some ("HTTP " ++ toString (404 : Nat))))))) ∧
        ((404 : Nat) = 401 →
          mobileRequest ⟨404, "", CType.json, RespBody.obj ⟨none, some "oops"⟩⟩
            = Except.error "UNAUTHORIZED")) :=
  ⟨rfl, rfl, by decide,
    request_error_message_amended
      ⟨404, "", CType.json, RespBody.obj ⟨none, some "oops"⟩⟩
      ⟨none, some "oops"⟩ rfl rfl (by decide)⟩

/-! Dashboard sentiment distribution
(`mental-health-frontend/src/components/dashboard/DashboardStats.js`
lines 129-131): for each `[sentiment, count]` entry the rendered
percentage is `total > 0 ? (count / total) * 100 : 0` where `total` is
the sum of all counts. -/

/-- Embedding of the per-entry percentage computation over the
`sentimentDistribution` entries. -/
def sentimentPercentages (dist : List (String × Nat)) : List (String × ℚ) :=
  dist.map (fun e =>
    let total : ℕ := (dist.map (fun x => x.2)).sum
    (e.1, if 0 < total then ((e.2 : ℚ) / (total : ℚ)) * 100 else 0))

/-- C7: when the denominator (sum of counts) is 0, every reported
percentage equals 0; the division is guarded, so the computation is
total. -/
theorem sentimentPercentages_zero_total (dist : List (String × Nat))
    (h : (dist.map (fun x => x.2)).sum = 0) :
    sentimentPercentages dist = dist.map (fun e => (e.1, (0 : ℚ))) := by
  unfold sentimentPercentages
  refine List.map_congr_left ?_
  intro e he
  simp [h]

/-- Witness for C7 at a concrete all-zero distribution. -/
theorem sentimentPercentages_zero_total_witness :
    (([("positive", 0), ("negative", 0)] : List (String × Nat)).map
        (fun x => x.2)).sum = 0 ∧
      sentimentPercentages [("positive", 0), ("negative", 0)]
        = ([("positive", 0), ("negative", 0)] : List (String × Nat)).map
            (fun e => (e.1, (0 : ℚ))) :=
  ⟨by decide, sentimentPercentages_zero_total
    [("positive", 0), ("negative", 0)] (by decide)⟩

/-! Mobile `AnalysisContext` (src/unnamed/part_005): the local analysis
history is a list of entries, newest first; `addAnalysis` builds a new
entry, skips it when its `analysis_id` is already present, otherwise
prepends it and truncates the list to 100 entries; `removeAnalysis`
awaits the server delete and only then filters the local list, while a
failed delete records the error and rethrows, leaving the list
untouched. -/

/-- An entry of the local analysis history. -/
structure AEntry where
  analysis_id : String
  message : String
  sentiment : String
  confidence : ℚ
  timestamp : String
  deriving Repr, DecidableEq

/-- Embedding of the `setAnalysisHistory` updater inside `addAnalysis`:
duplicate ids leave the state unchanged; otherwise the entry is
prepended and the list truncated to 100. -/
def addAnalysis (e : AEntry) (prev : List AEntry) : List AEntry :=
  if prev.any (fun item => item.analysis_id == e.analysis_id) then prev
  else (e :: prev).take 100

/-- State of the context relevant to `removeAnalysis`. -/
structure CtxState where
  history : List AEntry
  error : Option String
  deriving Repr, DecidableEq

/-- Embedding of `removeAnalysis`: the first component is the state after
the call, the second the outcome propagated to the caller (the rethrown
error on failure). -/
def removeAnalysis (serverOutcome : Except String Unit) (analysisId : String)
    (st : CtxState) : CtxState × Except String Unit :=
  match serverOutcome with
  | Except.ok _ =>
      (⟨st.history.filter (fun a => !(a.analysis_id == analysisId)), st.error⟩,
        Except.ok ())
  | Except.error e => (⟨st.history, some e⟩, Except.error e)

theorem addAnalysis_preserves (e : AEntry) (st : List AEntry)
    (hlen : st.length ≤ 100) (hnd : (st.map AEntry.analysis_id).Nodup) :
    (addAnalysis e st).length ≤ 100 ∧
      ((addAnalysis e st).map AEntry.analysis_id).Nodup := by
  rw [addAnalysis]
  by_cases hdup : st.any (fun item => item.analysis_id == e.analysis_id) = true
  · simp only [hdup, if_true]
    exact ⟨hlen, hnd⟩
  · simp only [hdup, if_false]
    constructor
    · exact List.length_take_le 100 (e :: st)
    · have hsub : ((e :: st).take 100).map AEntry.analysis_id
          |>.Sublist ((e :: st).map AEntry.analysis_id) :=
        List.Sublist.map AEntry.analysis_id (List.take_sublist 100 (e :: st))
      refine List.Nodup.sublist hsub ?_
      rw [List.map_cons]
      refine List.nodup_cons.mpr ⟨?_, hnd⟩
      intro hmem
      rcases List.mem_map.mp hmem with ⟨x, hx, hxid⟩
      have : st.any (fun item => item.analysis_id == e.analysis_id) = true :=
        List.any_eq_true.mpr ⟨x, hx, by simp [hxid]⟩
      exact hdup this

theorem addAnalysis_fold_inv (rs : List AEntry) (st : List AEntry)
    (hlen : st.length ≤ 100) (hnd : (st.map AEntry.analysis_id).Nodup) :
    (rs.foldl (fun acc e => addAnalysis e acc) st).length ≤ 100 ∧
      ((rs.foldl (fun acc e => addAnalysis e acc) st).map
        AEntry.analysis_id).Nodup := by
  induction rs generalizing st with
  | nil => exact ⟨hlen, hnd⟩
  | cons hd tl ih =>
      have := addAnalysis_preserves hd st hlen hnd
      exact ih (addAnalysis hd st) this.1 this.2

/-- C9: any sequence of `addAnalysis` calls starting from the initial
empty history keeps at most 100 entries with pairwise-distinct
analysis ids; an entry whose id is not yet present is prepended (the
truncated list starts with it), and one whose id is present leaves the
list unchanged. -/
theorem addAnalysis_history_invariants (rs : List AEntry) :
    ((rs.foldl (fun acc e => addAnalysis e acc) []).length ≤ 100 ∧
      ((rs.foldl (fun acc e => addAnalysis e acc) []).map
        AEntry.analysis_id).Nodup) ∧
    (∀ e st, st.any (fun item => item.analysis_id == e.analysis_id) = false →
      addAnalysis e st = (e :: st).take 100 ∧
        (addAnalysis e st).head? = some e) ∧
    (∀ e st, st.any (fun item => item.analysis_id == e.analysis_id) = true →
      addAnalysis e st = st) := by
  refine ⟨addAnalysis_fold_inv rs [] (by simp) (by simp), ?_, ?_⟩
  · intro e st hfresh
    have heq : addAnalysis e st = (e :: st).take 100 := by
      rw [addAnalysis, hfresh]
      simp
    refine ⟨heq, ?_⟩
    rw [heq, show (100 : ℕ) = 99 + 1 by norm_num, List.take_succ_cons]
    rfl
  · intro e st hdup
    rw [addAnalysis, hdup]
    simp

/-- Witness for C9 at concrete entries: a two-call fold, a fresh insert
in front of a singleton state, and a duplicate insert that is a no-op. -/
theorem addAnalysis_history_invariants_witness :
    ((([⟨"a1", "hi", "neutral", 1/2, "t1"⟩,
        ⟨"a2", "yo", "positive", 3/5, "t2"⟩] :
          List AEntry).foldl (fun acc e => addAnalysis e acc) []).length ≤ 100 ∧
      ((([⟨"a1", "hi", "neutral", 1/2, "t1"⟩,
          ⟨"a2", "yo", "positive", 3/5, "t2"⟩] :
            List AEntry).foldl (fun acc e => addAnalysis e acc) []).map
        AEntry.analysis_id).Nodup) ∧
    (addAnalysis ⟨"a2", "yo", "positive", 3/5, "t2"⟩
        [⟨"a1", "hi", "neutral", 1/2, "t1"⟩]
      = ((⟨"a2", "yo", "positive", 3/5, "t2"⟩ : AEntry) ::
          [⟨"a1", "hi", "neutral", 1/2, "t1"⟩]).take 100 ∧
      (addAnalysis ⟨"a2", "yo", "positive", 3/5, "t2"⟩
        [⟨"a1", "hi", "neutral", 1/2, "t1"⟩]).head?
        = some ⟨"a2", "yo", "positive", 3/5, "t2"⟩) ∧
    addAnalysis ⟨"a1", "bye", "negative", 2/5, "t3"⟩
        [⟨"a1", "hi", "neutral", 1/2, "t1"⟩]
      = [⟨"a1", "hi", "neutral", 1/2, "t1"⟩] :=
  ⟨(addAnalysis_history_invariants
      [⟨"a1", "hi", "neutral", 1/2, "t1"⟩,
       ⟨"a2", "yo", "positive", 3/5, "t2"⟩]).1,
   (addAnalysis_history_invariants []).2.1
      ⟨"a2", "yo", "positive", 3/5, "t2"⟩
      [⟨"a1", "hi", "neutral", 1/2, "t1"⟩] (by decide),
   (addAnalysis_history_invariants []).2.2
      ⟨"a1", "bye", "negative", 2/5, "t3"⟩
      [⟨"a1", "hi", "neutral", 1/2, "t1"⟩] (by decide)⟩

/-- C10: when the server delete succeeds, `removeAnalysis` removes
exactly the entries whose id equals the argument (an entry survives iff
it was present and its id differs); when the server delete fails, the
local history is unchanged, the error is recorded and the same error is
rethrown. -/
theorem removeAnalysis_atomic (analysisId : String) (st : CtxState) :
    ((removeAnalysis (Except.ok ()) analysisId st).1.history
        = st.history.filter (fun a => !(a.analysis_id == analysisId)) ∧
      (∀ a, a ∈ (removeAnalysis (Except.ok ()) analysisId st).1.history ↔
        (a ∈ st.history ∧ a.analysis_id ≠ analysisId))) ∧
    (∀ e, (removeAnalysis (Except.error e) analysisId st).1.history
          = st.history ∧
        (removeAnalysis (Except.error e) analysisId st).1.error = some e ∧
        (removeAnalysis (Except.error e) analysisId st).2
          = Except.error e) := by
  refine ⟨⟨rfl, ?_⟩, fun e => ⟨rfl, rfl, rfl⟩⟩
  intro a
  rw [removeAnalysis]
  simp [List.mem_filter]

/-- Witness for C10 at a concrete two-entry state: success removes the
matching entry, failure leaves the state intact and rethrows. -/
theorem removeAnalysis_atomic_witness :
    ((removeAnalysis (Except.ok ()) "a1"
        ⟨[⟨"a1", "hi", "neutral", 1/2, "t1"⟩,
          ⟨"a2", "yo", "positive", 3/5, "t2"⟩], none⟩).1.history
        = ([⟨"a1", "hi", "neutral", 1/2, "t1"⟩,
            ⟨"a2", "yo", "positive", 3/5, "t2"⟩] :
            List AEntry).filter (fun a => !(a.analysis_id == "a1")) ∧
      (((⟨"a2", "yo", "positive", 3/5, "t2"⟩ : AEntry) ∈
          (removeAnalysis (Except.ok ()) "a1"
            ⟨[⟨"a1", "hi", "neutral", 1/2, "t1"⟩,
              ⟨"a2", "yo", "positive", 3/5, "t2"⟩], none⟩).1.history) ↔
        ((⟨"a2", "yo", "positive", 3/5, "t2"⟩ : AEntry) ∈
            ([⟨"a1", "hi", "neutral", 1/2, "t1"⟩,
              ⟨"a2", "yo", "positive", 3/5, "t2"⟩] : List AEntry) ∧
          ("a2" : String) ≠ "a1"))) ∧
    ((removeAnalysis (Except.error "boom") "a1"
        ⟨[⟨"a1", "hi", "neutral", 1/2, "t1"⟩,
          ⟨"a2", "yo", "positive", 3/5, "t2"⟩], none⟩).1.history
        = [⟨"a1", "hi", "neutral", 1/2, "t1"⟩,
           ⟨"a2", "yo", "positive", 3/5, "t2"⟩] ∧
      (removeAnalysis (Except.error "boom") "a1"
        ⟨[⟨"a1", "hi", "neutral", 1/2, "t1"⟩,
          ⟨"a2", "yo", "positive", 3/5, "t2"⟩], none⟩).1.error = some "boom" ∧
      (removeAnalysis (Except.error "boom") "a1"
        ⟨[⟨"a1", "hi", "neutral", 1/2, "t1"⟩,
          ⟨"a2", "yo", "positive", 3/5, "t2"⟩], none⟩).2
        = Except.error "boom") :=
  ⟨⟨(removeAnalysis_atomic "a1"
      ⟨[⟨"a1", "hi", "neutral", 1/2, "t1"⟩,
        ⟨"a2", "yo", "positive", 3/5, "t2"⟩], none⟩).1.1,
    (removeAnalysis_atomic "a1"
      ⟨[⟨"a1", "hi", "neutral", 1/2, "t1"⟩,
        ⟨"a2", "yo", "positive", 3/5, "t2"⟩], none⟩).1.2
      ⟨"a2", "yo", "positive", 3/5, "t2"⟩⟩,
   (removeAnalysis_atomic "a1"
      ⟨[⟨"a1", "hi", "neutral", 1/2, "t1"⟩,
        ⟨"a2", "yo", "positive", 3/5, "t2"⟩], none⟩).2 "boom"⟩

/-! Chat Analysis Engine.  The server-side engine is not part of the
shipped sources (only its front-end callers and documentation are), so
the definitions below are modelled from the specification, as their doc
comments record. -/

/-- Sentiment label (spec section 3, SentimentResult.label). -/
inductive Label
  | positive
  | negative
  | neutral
  deriving Repr, DecidableEq, BEq

/-- Modelled from the spec: the built-in emoji polarity table of the
Emoji Analyzer (section 4.2); the exact table is absent from the shipped
sources, so a representative frozen table is adopted as the spec
instructs. -/
def emojiTable : List (Char × Int) :=
  [('😊', 1), ('😂', 1), ('❤', 1), ('👍', 1), ('🙂', 1), ('😍', 1),
   ('🎉', 1), ('😢', -1), ('😭', -1), ('😡', -1), ('👎', -1), ('💔', -1),
   ('😞', -1), ('😐', 0)]

/-- Modelled from the spec: emoji extraction of section 4.2 (code points
in the recognised emoji set). -/
def extractEmojis (t : String) : List Char :=
  t.data.filter (fun c => emojiTable.any (fun p => p.1 == c))

/-- Aggregate result of the Emoji Analyzer. -/
structure EmojiSummary where
  label : Label
  confidence : ℚ
  hasEmojis : Bool
  deriving Repr, DecidableEq

/-- Modelled from the spec: the Emoji Analyzer contract of section 4.2 -
polarity sum over the table, label by sign, confidence
min(1, abs(sum)/max(3, count)), else 0 with hasEmojis = false. -/
def emojiAnalyze (t : String) : EmojiSummary :=
  let es := extractEmojis t
  if es.isEmpty then ⟨Label.neutral, 0, false⟩
  else
    let s : Int := es.foldl
      (fun acc c => acc + (((emojiTable.find? (fun p => p.1 == c)).map
        Prod.snd).getD 0)) 0
    let lab := if 0 < s then Label.positive
      else if s < 0 then Label.negative else Label.neutral
    ⟨lab, min 1 ((s.natAbs : ℚ) / (max 3 es.length : ℚ)), true⟩

/-- Modelled from the spec: the filler token set of section 4.3 step 1
(the spec enumerates "ok", "yeah", "hmm", "lol" as examples; a frozen
list containing them is adopted). -/
def fillerSet : List String :=
  ["ok", "okay", "k", "yeah", "yes", "yep", "no", "nope", "hmm", "hm",
   "mhm", "lol", "haha", "sure", "fine"]

/-- Modelled from the spec: normalise(text) - trim and lowercase. -/
def normalise (t : String) : String :=
  String.mk ((jsTrim t.data).map Char.toLower)

/-- Lowercased text with only alphanumeric characters and spaces kept,
used for tokenisation and pattern scanning. -/
def simplifyText (t : String) : List Char :=
  (t.data.map Char.toLower).filter (fun c => c.isAlphanum || c == ' ')

/-- Split a character run on spaces into non-empty words. -/
def wordsOf (l : List Char) : List (List Char) :=
  (l.foldr (fun c acc =>
    if c == ' ' then [] :: acc
    else
      match acc with
      | [] => [[c]]
      | w :: ws => (c :: w) :: ws) []).filter (fun w => !w.isEmpty)

/-- Does the pattern occur as a contiguous run of the text. -/
def containsSub (pat : List Char) : List Char → Bool
  | [] => pat.isEmpty
  | c :: rest => pat.isPrefixOf (c :: rest) || containsSub pat rest

/-- Modelled from the spec: the positive word list of the Lexicon tables
(section 2 item 1; the full 47-word list is absent from the shipped
sources, a frozen subset is adopted). -/
def positiveWords : List String :=
  ["good", "great", "happy", "love", "loved", "awesome", "nice",
   "wonderful", "amazing", "excited", "fun", "glad", "best", "thanks",
   "thank", "beautiful", "perfect", "win", "proud", "enjoy"]

/-- Modelled from the spec: the negative word list of the Lexicon tables
(section 2 item 1; frozen subset). -/
def negativeWords : List String :=
  ["bad", "sad", "hate", "angry", "terrible", "awful", "worst",
   "annoyed", "upset", "depressed", "cry", "hurt", "lonely", "tired",
   "sorry", "wrong", "mad", "sick", "scared", "fail", "failed"]

/-- Modelled from the spec: multi-word positive patterns (section 4.3
step 3), matched over the simplified text. -/
def positivePatterns : List String :=
  ["cant wait", "feel good", "so happy", "love this"]

/-- Modelled from the spec: multi-word negative patterns (section 4.3
step 3). -/
def negativePatterns : List String :=
  ["went wrong", "had enough", "feel bad", "so tired"]

/-- Optional neural classifier result (section 4.3 contract). -/
structure ClassifierResult where
  label : Label
  confidence : ℚ
  emotionScores : List (String × ℚ)
  deriving Repr, DecidableEq

/-- SentimentResult of section 3: label, confidence, optional emotion
map, optional emoji summary. -/
structure SentimentResult where
  label : Label
  confidence : ℚ
  emotions : Option (List (String × ℚ))
  emojiSummary : Option EmojiSummary
  deriving Repr, DecidableEq

/-- Final confidence clamp to the unit interval (section 4.3 step 9). -/
def clamp01 (q : ℚ) : ℚ := min 1 (max 0 q)

/-- Modelled from the spec: phases 2-9 of the lexical Sentiment Scorer
of section 4.3.  Phases 2-5 count word and pattern hits against the
0.08 trigger threshold with punctuation amplifiers; phase 6 adds
0.35 x emoji confidence on matching polarity; phase 7 applies the
classifier override; phase 8 is the last-resort detection; phase 9
clamps the confidence.  The emotion map is present only when a
classifier result was supplied. -/
def scoreLexical (text : String) (hint : Option ClassifierResult) :
    SentimentResult :=
    let emj := emojiAnalyze text
    let body := simplifyText text
    let ws := wordsOf body
    let wc := ws.length
    let posWordHits := ws.countP (fun w => positiveWords.contains (String.mk w))
    let negWordHits := ws.countP (fun w => negativeWords.contains (String.mk w))
    let posPat := positivePatterns.countP (fun p => containsSub p.data body)
    let negPat := negativePatterns.countP (fun p => containsSub p.data body)
    let posAmp := if (jsTrim text.data).getLast? == some '!' then 1 else 0
    let negAmp := if 2 ≤ text.data.countP (fun c => c == '?') then 1 else 0
    let pos := posWordHits + 2 * posPat + posAmp
    let neg := negWordHits + 2 * negPat + negAmp
    let strongEnough := decide (8 * max 1 wc ≤ 100 * (pos + neg))
    let rawLabel := if neg < pos then Label.positive
      else if pos < neg then Label.negative else Label.neutral
    let lexLabel := if strongEnough then rawLabel else Label.neutral
    let lexConf : ℚ :=
      if lexLabel == Label.neutral then
        max (1/2) (1 - ((pos + neg : ℚ) / ((wc : ℚ) + 1)))
      else
        min 1 ((1/2) + ((pos + neg : ℚ) / ((max 1 wc : ℕ) : ℚ)))
    let confEmoji :=
      if emj.hasEmojis && (emj.label == lexLabel) then
        lexConf + (7/20) * emj.confidence
      else lexConf
    let afterClassifier : Label × ℚ :=
      match hint with
      | some c =>
          if c.label == Label.neutral then
            if decide ((3/5 : ℚ) < emj.confidence)
                && !(emj.label == Label.neutral) then
              (emj.label, emj.confidence)
            else (Label.neutral, max c.confidence (confEmoji * (9/10)))
          else (c.label, max c.confidence (confEmoji * (9/10)))
      | none => (lexLabel, confEmoji)
    let lastResort : Label × ℚ :=
      if (pos + neg == 0) && hint.isNone
          && (afterClassifier.1 == Label.neutral) then
        if text.data.contains '!' then (Label.positive, 13/25)
        else if 2 ≤ text.data.countP (fun c => c == '?') then
          (Label.negative, 13/25)
        else if emj.hasEmojis then (emj.label, emj.confidence)
        else afterClassifier
      else afterClassifier
    { label := lastResort.1
      confidence := clamp01 lastResort.2
      emotions := hint.map (fun c => c.emotionScores)
      emojiSummary := some emj }

/-- Modelled from the spec: the Sentiment Scorer contract of section
4.3 - the filler early return of phase 1, otherwise the lexical phases. -/
def Score (text : String) (hint : Option ClassifierResult) : SentimentResult :=
  if fillerSet.contains (normalise text) && !(emojiAnalyze text).hasEmojis then
    { label := Label.neutral, confidence := 11/20, emotions := none,
      emojiSummary := some ⟨Label.neutral, 0, false⟩ }
  else scoreLexical text hint

/-- Facade entry point: AnalyzeMessage scores a single message with no
classifier hint (section 4.6). -/
def AnalyzeMessage (text : String) : SentimentResult :=
  Score text none

/-- C3: for every input whose normalised form is in the filler set and
which contains no emoji, AnalyzeMessage returns label neutral with
confidence 0.55 and no emotions map. -/
theorem analyzeMessage_filler_neutral (text : String)
    (hfiller : fillerSet.contains (normalise text) = true)
    (hemoji : (emojiAnalyze text).hasEmojis = false) :
    (AnalyzeMessage text).label = Label.neutral ∧
      (AnalyzeMessage text).confidence = 11/20 ∧
      (AnalyzeMessage text).emotions = none := by
  rw [AnalyzeMessage, Score]
  have hmem : normalise text ∈ fillerSet := by
    simpa using hfiller
  simp [hmem, hemoji]

/-- Witness for C3 at the concrete input "ok", giving the literal
scenario S2: AnalyzeMessage("ok") is neutral, 0.55, emotions absent. -/
theorem analyzeMessage_filler_neutral_witness :
    fillerSet.contains (normalise "ok") = true ∧
      (emojiAnalyze "ok").hasEmojis = false ∧
      ((AnalyzeMessage "ok").label = Label.neutral ∧
        (AnalyzeMessage "ok").confidence = 11/20 ∧
        (AnalyzeMessage "ok").emotions = none) :=
  ⟨by decide, by decide,
    analyzeMessage_filler_neutral "ok" (by decide) (by decide)⟩

/-! Sentiment rollup (spec section 4.4): the aggregator scores each
non-media message and reports per-participant label frequencies. -/

/-- Canonical message record (spec section 3), restricted to the fields
the sentiment rollup reads. -/
structure Msg where
  sender : String
  text : String
  isMedia : Bool
  deriving Repr, DecidableEq

/-- Modelled from the spec: the messages of a participant that get
scored - the non-media messages with that sender. -/
def scoredMessages (msgs : List Msg) (name : String) : List Msg :=
  msgs.filter (fun m => m.sender == name && !m.isMedia)

/-- The label the aggregator obtains for a message (scored without a
classifier hint). -/
def msgLabel (m : Msg) : Label :=
  (Score m.text none).label

/-- Per-participant sentiment rollup record (spec section 3,
sentimentAnalysis). -/
structure SentimentRates where
  positiveRate : ℚ
  neutralRate : ℚ
  negativeRate : ℚ
  deriving Repr, DecidableEq

/-- Modelled from the spec: per-participant sentiment rollup of section
4.4 - label counts over the scored messages divided by the participant
total, all zero when the denominator is zero. -/
def participantSentiment (msgs : List Msg) (name : String) : SentimentRates :=
  let scored := scoredMessages msgs name
  let total := scored.length
  if total = 0 then ⟨0, 0, 0⟩
  else
    ⟨((scored.countP (fun m => msgLabel m == Label.positive) : ℕ) : ℚ)
        / (total : ℚ),
     ((scored.countP (fun m => msgLabel m == Label.neutral) : ℕ) : ℚ)
        / (total : ℚ),
     ((scored.countP (fun m => msgLabel m == Label.negative) : ℕ) : ℚ)
        / (total : ℚ)⟩

theorem countP_label_partition (g : Msg → Label) (l : List Msg) :
    l.countP (fun m => g m == Label.positive)
        + l.countP (fun m => g m == Label.neutral)
        + l.countP (fun m => g m == Label.negative)
      = l.length := by
  induction l with
  | nil => rfl
  | cons hd tl ih =>
      rw [List.countP_cons, List.countP_cons, List.countP_cons,
        List.length_cons]
      cases hg : g hd <;>
        simp [hg,
          show (Label.positive == Label.positive) = true from rfl,
          show (Label.positive == Label.neutral) = false from rfl,
          show (Label.positive == Label.negative) = false from rfl,
          show (Label.negative == Label.positive) = false from rfl,
          show (Label.negative == Label.neutral) = false from rfl,
          show (Label.negative == Label.negative) = true from rfl,
          show (Label.neutral == Label.positive) = false from rfl,
          show (Label.neutral == Label.neutral) = true from rfl,
          show (Label.neutral == Label.negative) = false from rfl] <;>
        omega

/-- C2: for every participant with at least one scored (non-media)
message, the three sentiment rates sum to 1 within an absolute tolerance
of 1e-6 (here the sum is exactly 1 over the rationals). -/
theorem participantSentiment_sum_unit (msgs : List Msg) (name : String)
    (h : scoredMessages msgs name ≠ []) :
    1 - 1/1000000 ≤
        (participantSentiment msgs name).positiveRate
          + (participantSentiment msgs name).neutralRate
          + (participantSentiment msgs name).negativeRate ∧
      (participantSentiment msgs name).positiveRate
          + (participantSentiment msgs name).neutralRate
          + (participantSentiment msgs name).negativeRate
        ≤ 1 + 1/1000000 := by
  have htot : (scoredMessages msgs name).length ≠ 0 := by
    simpa [List.length_eq_zero] using h
  have hsum :
      (participantSentiment msgs name).positiveRate
          + (participantSentiment msgs name).neutralRate
          + (participantSentiment msgs name).negativeRate = 1 := by
    have hn : (((scoredMessages msgs name).length : ℕ) : ℚ) ≠ 0 := by
      exact_mod_cast htot
    have hpart := countP_label_partition msgLabel (scoredMessages msgs name)
    simp only [participantSentiment, htot, if_false]
    rw [div_add_div_same, div_add_div_same, div_eq_one_iff_eq hn]
    exact_mod_cast hpart
  rw [hsum]
  norm_num

/-- Witness for C2 at a concrete one-message conversation. -/
theorem participantSentiment_sum_unit_witness :
    scoredMessages [⟨"Alice", "great day", false⟩] "Alice" ≠ [] ∧
      (1 - 1/1000000 ≤
          (participantSentiment [⟨"Alice", "great day", false⟩]
            "Alice").positiveRate
            + (participantSentiment [⟨"Alice", "great day", false⟩]
                "Alice").neutralRate
            + (participantSentiment [⟨"Alice", "great day", false⟩]
                "Alice").negativeRate ∧
        (participantSentiment [⟨"Alice", "great day", false⟩]
            "Alice").positiveRate
            + (participantSentiment [⟨"Alice", "great day", false⟩]
                "Alice").neutralRate
            + (participantSentiment [⟨"Alice", "great day", false⟩]
                "Alice").negativeRate
          ≤ 1 + 1/1000000) :=
  ⟨by decide, participantSentiment_sum_unit
    [⟨"Alice", "great day", false⟩] "Alice" (by decide)⟩

/-! Red-flag report and health indicator (spec sections 3 and 4.5). -/

/-- Severity of a finding. -/
inductive Severity
  | low
  | medium
  | high
  deriving Repr, DecidableEq, BEq

/-- A red-flag or warning finding. -/
structure Finding where
  kind : String
  severity : Severity
  description : String
  suggestion : String
  deriving Repr, DecidableEq

/-- The three-valued health indicator. -/
inductive Health
  | healthy
  | moderate
  | concerning
  deriving Repr, DecidableEq, BEq

/-- Modelled from the spec: the health derivation of section 3 -
concerning iff at least two red flags or any high-severity red flag,
else moderate iff any red flag or at least two warnings, else healthy. -/
def overallHealthOf (redFlags warnings : List Finding) : Health :=
  if 2 ≤ redFlags.length ∨ ∃ f ∈ redFlags, f.severity = Severity.high then
    Health.concerning
  else if 1 ≤ redFlags.length ∨ 2 ≤ warnings.length then Health.moderate
  else Health.healthy

/-- The redFlags section of a ChatAnalysis (spec section 3). -/
structure RedFlagReport where
  red_flags : List Finding
  warnings : List Finding
  total_red_flags : ℕ
  total_warnings : ℕ
  overall_health : Health
  deriving Repr, DecidableEq

/-- Modelled from the spec: the Red-Flag Detector output - totals are
the list lengths and the health indicator is derived, not stored
independently. -/
def buildRedFlagReport (redFlags warnings : List Finding) : RedFlagReport :=
  ⟨redFlags, warnings, redFlags.length, warnings.length,
    overallHealthOf redFlags warnings⟩

/-- C1: overallHealth equals the value derived from the findings:
concerning iff totalRedFlags at least 2 or some red flag has severity
high; otherwise moderate iff at least one red flag or totalWarnings at
least 2; otherwise healthy; and no fourth value ever appears. -/
theorem overallHealth_characterisation (rf w : List Finding) :
    ((buildRedFlagReport rf w).overall_health = Health.concerning ↔
      (2 ≤ (buildRedFlagReport rf w).total_red_flags ∨
        ∃ f ∈ (buildRedFlagReport rf w).red_flags,
          f.severity = Severity.high)) ∧
    ((buildRedFlagReport rf w).overall_health = Health.moderate ↔
      (¬(2 ≤ (buildRedFlagReport rf w).total_red_flags ∨
          ∃ f ∈ (buildRedFlagReport rf w).red_flags,
            f.severity = Severity.high) ∧
        (1 ≤ (buildRedFlagReport rf w).total_red_flags ∨
          2 ≤ (buildRedFlagReport rf w).total_warnings))) ∧
    ((buildRedFlagReport rf w).overall_health = Health.healthy ↔
      (¬(2 ≤ (buildRedFlagReport rf w).total_red_flags ∨
          ∃ f ∈ (buildRedFlagReport rf w).red_flags,
            f.severity = Severity.high) ∧
        ¬(1 ≤ (buildRedFlagReport rf w).total_red_flags ∨
          2 ≤ (buildRedFlagReport rf w).total_warnings))) ∧
    ((buildRedFlagReport rf w).overall_health = Health.healthy ∨
      (buildRedFlagReport rf w).overall_health = Health.moderate ∨
      (buildRedFlagReport rf w).overall_health = Health.concerning) := by
  unfold buildRedFlagReport overallHealthOf
  split_ifs with h1 h2 <;> simp_all

/-! Participant roles (spec section 3): role is self iff a caller
selfName was provided and matches the participant name case-insensitively
after whitespace trimming; participants are derived from distinct raw
sender names. -/

/-- Participant role. -/
inductive Role
  | self
  | other
  deriving Repr, DecidableEq, BEq

/-- Modelled from the spec: the role assignment of section 3 - self iff
selfName was provided and matches the name after trimming and
lowercasing, otherwise other. -/
def roleOf (selfName : Option String) (name : String) : Role :=
  match selfName with
  | none => Role.other
  | some s => if normalise s == normalise name then Role.self else Role.other

/-- Modelled from the spec: participants paired with their assigned
roles, derived from the distinct sender names (section 4.4). -/
def assignRoles (selfName : Option String) (names : List String) :
    List (String × Role) :=
  names.map (fun n => (n, roleOf selfName n))

theorem countP_le_one_of_nodup_map {α β : Type} [DecidableEq β]
    (p : α → Bool) (f : α → β) (t : β)
    (hp : ∀ a, p a = true ↔ f a = t) (l : List α)
    (h : (l.map f).Nodup) :
    l.countP p ≤ 1 := by
  induction l with
  | nil => simp
  | cons hd tl ih =>
      rw [List.map_cons, List.nodup_cons] at h
      rw [List.countP_cons]
      by_cases he : f hd = t
      · have hz : tl.countP p = 0 := by
          rw [List.countP_eq_zero]
          intro a ha hpa
          have : f a = t := (hp a).mp hpa
          exact h.1 (by
            rw [he, ← this]
            exact List.mem_map_of_mem f ha)
        have hple : (if p hd then 1 else 0) ≤ 1 := by
          by_cases hb : p hd <;> simp [hb]
        omega
      · have hf : p hd = false := by
          cases hb : p hd
          · rfl
          · exact absurd ((hp hd).mp hb) he
        have hif : (if p hd = true then 1 else 0) = 0 := by
          rw [hf]
          rfl
        have := ih h.2
        omega

/-- C8 counterexample: with selfName "alice" and the two distinct raw
sender names "Alice" and "alice" (both matching case-insensitively after
trimming), two participants receive role self, so at most one self
fails. -/
theorem assignRoles_two_self_cex :
    (["Alice", "alice"] : List String).Nodup ∧
      (assignRoles (some "alice") ["Alice", "alice"]).countP
        (fun p => p.2 == Role.self) = 2 := by
  constructor
  · decide
  · decide

/-- C8 (amended): each participant role is self or other; the role is
self iff a selfName was provided and matches the name case-insensitively
after trimming; and at most one participant has role self provided the
participant names are pairwise distinct under that normalisation. -/
theorem roleOf_characterisation (selfName : Option String)
    (names : List String) (hnd : (names.map normalise).Nodup) :
    (∀ n, roleOf selfName n = Role.self ∨ roleOf selfName n = Role.other) ∧
    (∀ n, roleOf selfName n = Role.self ↔
      ∃ s, selfName = some s ∧ normalise s = normalise n) ∧
    (assignRoles selfName names).countP (fun p => p.2 == Role.self) ≤ 1 := by
  refine ⟨?_, ?_, ?_⟩
  · intro n
    rcases selfName with _ | s
    · exact Or.inr rfl
    · rw [roleOf]
      by_cases hm : normalise s == normalise n
      · exact Or.inl (by simp [hm])
      · exact Or.inr (by simp [hm])
  · intro n
    rcases selfName with _ | s
    · simp [roleOf]
    · rw [roleOf]
      by_cases hm : (normalise s == normalise n) = true
      · simp only [hm, if_true]
        constructor
        · intro _
          exact ⟨s, rfl, by simpa using hm⟩
        · intro _
          trivial
      · simp only [hm, if_false]
        constructor
        · intro hcontra
          exact absurd hcontra (by simp)
        · rintro ⟨s2, hs2, hnorm⟩
          have hss : s2 = s := by
            injection hs2.symm
          rw [hss] at hnorm
          exact absurd (by simpa using hnorm) hm
  · rw [assignRoles, List.countP_map]
    rcases selfName with _ | s
    · have hz : names.countP ((fun p : String × Role => p.2 == Role.self) ∘
          (fun n => (n, roleOf none n))) = 0 := by
        rw [List.countP_eq_zero]
        intro n _ hc
        exact Bool.noConfusion hc
      rw [hz]
      norm_num
    · refine countP_le_one_of_nodup_map _ normalise (normalise s) ?_ names hnd
      intro n
      rw [Function.comp_apply, roleOf]
      cases hb : (normalise s == normalise n) with
      | true =>
          have hm2 : normalise n = normalise s := (beq_iff_eq.mp hb).symm
          simp [hb, hm2, show (Role.self == Role.self) = true from rfl]
      | false =>
          have hm2 : ¬(normalise n = normalise s) := by
            intro hc
            have hcb : (normalise s == normalise n) = true :=
              beq_iff_eq.mpr hc.symm
            rw [hb] at hcb
            exact Bool.noConfusion hcb
          constructor
          · intro hc
            exact Bool.noConfusion hc
          · intro hc
            exact absurd hc hm2

/-- Witness for C8 amended at names Bob and Alice with selfName "bob". -/
theorem roleOf_characterisation_witness :
    ((["Bob", "Alice"] : List String).map normalise).Nodup ∧
      ((roleOf (some "bob") "Bob" = Role.self ∨
          roleOf (some "bob") "Bob" = Role.other) ∧
        (roleOf (some "bob") "Bob" = Role.self ↔
          ∃ s, (some "bob" : Option String) = some s ∧
            normalise s = normalise "Bob") ∧
        (assignRoles (some "bob") ["Bob", "Alice"]).countP
          (fun p => p.2 == Role.self) ≤ 1) :=
  ⟨by decide,
    (roleOf_characterisation (some "bob") ["Bob", "Alice"] (by decide)).1 "Bob",
    (roleOf_characterisation (some "bob") ["Bob", "Alice"] (by decide)).2.1
      "Bob",
    (roleOf_characterisation (some "bob") ["Bob", "Alice"] (by decide)).2.2⟩

end HealthPeek
